import Mathlib

/-!
Verification development for the Montreal snow-removal integration.

Strings are modelled as `List Char`.  The Unicode primitives used by
`address_parser.normalize_street_name` (NFD decomposition via
`unicodedata.normalize`, the `Mn` category test via `unicodedata.category`,
`str.lower`, `str.strip`) are modelled concretely for the Latin-1 repertoire
the integration works with (French street names); characters outside this
repertoire are left unchanged, which mirrors the fact that they have no
canonical decomposition, are not combining marks, and have no case mapping
relevant here.  Machine floats are modelled by `ℚ`, with the two numeric leaf
functions of the resolver (`_haversine_distance`, `_point_to_segment_distance`)
kept abstract as parameters of the environment, since their trigonometric
bodies have no exact rational counterpart; all control flow around them is
translated faithfully.
-/

/-- Model of `unicodedata.category(char) == "Mn"`: the combining diacritical
marks block U+0300–U+036F, which contains every mark produced by the
decomposition table below. -/
def isMn (c : Char) : Bool := 0x300 ≤ c.toNat && c.toNat ≤ 0x36F

/-- Canonical (NFD) decompositions of the precomposed Latin-1 letters:
`(precomposed, base letter, combining mark)`.  Model of the decompositions
applied by `unicodedata.normalize("NFD", ...)` on this repertoire. -/
def decompTable : List (Char × Char × Char) := [
  ('à', 'a', '̀'), ('á', 'a', '́'), ('â', 'a', '̂'),
  ('ã', 'a', '̃'), ('ä', 'a', '̈'), ('å', 'a', '̊'),
  ('ç', 'c', '̧'), ('è', 'e', '̀'), ('é', 'e', '́'),
  ('ê', 'e', '̂'), ('ë', 'e', '̈'), ('ì', 'i', '̀'),
  ('í', 'i', '́'), ('î', 'i', '̂'), ('ï', 'i', '̈'),
  ('ñ', 'n', '̃'), ('ò', 'o', '̀'), ('ó', 'o', '́'),
  ('ô', 'o', '̂'), ('õ', 'o', '̃'), ('ö', 'o', '̈'),
  ('ù', 'u', '̀'), ('ú', 'u', '́'), ('û', 'u', '̂'),
  ('ü', 'u', '̈'), ('ý', 'y', '́'), ('ÿ', 'y', '̈'),
  ('À', 'A', '̀'), ('Á', 'A', '́'), ('Â', 'A', '̂'),
  ('Ã', 'A', '̃'), ('Ä', 'A', '̈'), ('Å', 'A', '̊'),
  ('Ç', 'C', '̧'), ('È', 'E', '̀'), ('É', 'E', '́'),
  ('Ê', 'E', '̂'), ('Ë', 'E', '̈'), ('Ì', 'I', '̀'),
  ('Í', 'I', '́'), ('Î', 'I', '̂'), ('Ï', 'I', '̈'),
  ('Ñ', 'N', '̃'), ('Ò', 'O', '̀'), ('Ó', 'O', '́'),
  ('Ô', 'O', '̂'), ('Õ', 'O', '̃'), ('Ö', 'O', '̈'),
  ('Ù', 'U', '̀'), ('Ú', 'U', '́'), ('Û', 'U', '̂'),
  ('Ü', 'U', '̈'), ('Ý', 'Y', '́')]

/-- Per-character NFD decomposition (identity off the table). -/
def decompose (c : Char) : List Char :=
  match decompTable.find? (fun e => e.1 == c) with
  | some e => [e.2.1, e.2.2]
  | none => [c]

/-- Case mappings of `str.lower` for ASCII and the Latin-1 letters. -/
def lowerTable : List (Char × Char) := [
  ('A', 'a'), ('B', 'b'), ('C', 'c'), ('D', 'd'), ('E', 'e'), ('F', 'f'),
  ('G', 'g'), ('H', 'h'), ('I', 'i'), ('J', 'j'), ('K', 'k'), ('L', 'l'),
  ('M', 'm'), ('N', 'n'), ('O', 'o'), ('P', 'p'), ('Q', 'q'), ('R', 'r'),
  ('S', 's'), ('T', 't'), ('U', 'u'), ('V', 'v'), ('W', 'w'), ('X', 'x'),
  ('Y', 'y'), ('Z', 'z'),
  ('À', 'à'), ('Á', 'á'), ('Â', 'â'), ('Ã', 'ã'), ('Ä', 'ä'), ('Å', 'å'),
  ('Æ', 'æ'), ('Ç', 'ç'), ('È', 'è'), ('É', 'é'), ('Ê', 'ê'), ('Ë', 'ë'),
  ('Ì', 'ì'), ('Í', 'í'), ('Î', 'î'), ('Ï', 'ï'), ('Ð', 'ð'), ('Ñ', 'ñ'),
  ('Ò', 'ò'), ('Ó', 'ó'), ('Ô', 'ô'), ('Õ', 'õ'), ('Ö', 'ö'), ('Ø', 'ø'),
  ('Ù', 'ù'), ('Ú', 'ú'), ('Û', 'û'), ('Ü', 'ü'), ('Ý', 'ý'), ('Þ', 'þ')]

/-- Per-character model of `str.lower` (identity off the table). -/
def lowerChar (c : Char) : Char :=
  match lowerTable.find? (fun e => e.1 == c) with
  | some e => e.2
  | none => c

/-- Characters removed by Python's argumentless `str.strip`. -/
def isSpaceChar (c : Char) : Bool :=
  [9, 10, 11, 12, 13, 28, 29, 30, 31, 32, 0x85, 0xA0].contains c.toNat

/-- Model of `str.strip()`: drop leading and trailing whitespace. -/
def stripChars (l : List Char) : List Char :=
  ((l.dropWhile isSpaceChar).reverse.dropWhile isSpaceChar).reverse

/-- Embedding of `AddressParser.normalize_street_name`
(`address_parser.py:112-139`): NFD-decompose, drop combining marks (`Mn`),
lowercase, strip. -/
def normalize_street_name (name : List Char) : List Char :=
  if name = [] then []
  else stripChars (((name.flatMap decompose).filter (fun c => !isMn c)).map lowerChar)

/-! Stability machinery for idempotence of `normalize_street_name`. -/

/-- A character that each stage of the pipeline leaves unchanged. -/
def stableCharB (c : Char) : Bool :=
  decompose c == [c] && !isMn c && lowerChar c == c

theorem stableCharB_decompose {c : Char} (h : stableCharB c = true) :
    decompose c = [c] := by
  simp [stableCharB] at h; exact h.1.1

theorem stableCharB_isMn {c : Char} (h : stableCharB c = true) :
    isMn c = false := by
  simp [stableCharB] at h; exact h.1.2

theorem stableCharB_lower {c : Char} (h : stableCharB c = true) :
    lowerChar c = c := by
  simp [stableCharB] at h; exact h.2

/-- Facts about the decomposition table, checked by computation: every mark is
a combining mark and every base letter is itself stable after lowercasing. -/
theorem decompTable_facts :
    ∀ e ∈ decompTable, isMn e.2.2 = true ∧ stableCharB (lowerChar e.2.1) = true := by
  decide

/-- Facts about the case table, checked by computation: whenever the upper-case
side has no decomposition, the lower-case side is fully stable. -/
theorem lowerTable_facts :
    ∀ e ∈ lowerTable,
      (decompTable.find? (fun d => d.1 == e.1)).isSome = true ∨
        stableCharB e.2 = true := by
  decide

/-- Characters outside the case table are fixed by `lowerChar`. -/
theorem lowerChar_eq_of_none {c : Char}
    (hfind : lowerTable.find? (fun e => e.1 == c) = none) : lowerChar c = c := by
  unfold lowerChar; rw [hfind]

/-- A character with no decomposition and no combining-mark category becomes
stable after lowercasing. -/
theorem stable_of_not_key {c : Char}
    (hk : decompTable.find? (fun e => e.1 == c) = none)
    (hm : isMn c = false) : stableCharB (lowerChar c) = true := by
  cases hfind : lowerTable.find? (fun e => e.1 == c) with
  | none =>
    have hl := lowerChar_eq_of_none hfind
    rw [hl]
    simp [stableCharB, decompose, hk, hm, hl]
  | some e =>
    have hl : lowerChar c = e.2 := by unfold lowerChar; rw [hfind]
    rw [hl]
    have hmem := List.mem_of_find?_eq_some hfind
    have hpred := List.find?_some hfind
    have hceq : e.1 = c := by simpa using hpred
    rcases lowerTable_facts e hmem with h | h
    · rw [hceq] at h
      rw [hk] at h
      simp at h
    · exact h

/-- Every non-mark character emitted by the decomposition stage is stable once
lowercased. -/
theorem stable_after_pipeline {c d : Char}
    (hd : d ∈ decompose c) (hm : isMn d = false) :
    stableCharB (lowerChar d) = true := by
  unfold decompose at hd
  cases hk : decompTable.find? (fun e => e.1 == c) with
  | none =>
    rw [hk] at hd
    simp at hd
    subst hd
    exact stable_of_not_key hk hm
  | some e =>
    rw [hk] at hd
    have hmem := List.mem_of_find?_eq_some hk
    rcases decompTable_facts e hmem with ⟨hmark, hbase⟩
    simp at hd
    rcases hd with hd | hd
    · subst hd; exact hbase
    · subst hd; rw [hm] at hmark; cases hmark

theorem dropWhile_head_false {p : Char → Bool} :
    ∀ {l t : List Char} {a : Char}, l.dropWhile p = a :: t → p a = false := by
  intro l
  induction l with
  | nil => intro t a h; simp [List.dropWhile] at h
  | cons b l ih =>
    intro t a h
    rw [List.dropWhile_cons] at h
    by_cases hb : p b = true
    · rw [if_pos hb] at h; exact ih h
    · rw [if_neg hb] at h
      cases h
      simpa using hb

theorem dropWhile_dropWhile (p : Char → Bool) (l : List Char) :
    (l.dropWhile p).dropWhile p = l.dropWhile p := by
  cases h : l.dropWhile p with
  | nil => simp
  | cons a t =>
    have := dropWhile_head_false h
    rw [List.dropWhile_cons, if_neg (by simp [this])]

theorem mem_stripChars {l : List Char} {d : Char} (hd : d ∈ stripChars l) :
    d ∈ l := by
  unfold stripChars at hd
  rw [List.mem_reverse] at hd
  have h1 := (List.dropWhile_suffix isSpaceChar).subset hd
  rw [List.mem_reverse] at h1
  exact (List.dropWhile_suffix isSpaceChar).subset h1

theorem stripChars_idem (l : List Char) : stripChars (stripChars l) = stripChars l := by
  have hpre : stripChars l <+: l.dropWhile isSpaceChar := by
    have h := List.reverse_prefix.mpr
      (List.dropWhile_suffix (l := (l.dropWhile isSpaceChar).reverse) isSpaceChar)
    rwa [List.reverse_reverse] at h
  have hdw : (stripChars l).dropWhile isSpaceChar = stripChars l := by
    cases hu : stripChars l with
    | nil => simp
    | cons a t =>
      rcases hpre with ⟨h, hr⟩
      rw [hu] at hr
      have hfalse : isSpaceChar a = false :=
        dropWhile_head_false (l := l) (t := t ++ h) (by rw [← hr]; simp)
      rw [List.dropWhile_cons, if_neg (by simp [hfalse])]
  have hrev : (stripChars l).reverse = ((l.dropWhile isSpaceChar).reverse).dropWhile isSpaceChar := by
    unfold stripChars
    rw [List.reverse_reverse]
  show (((stripChars l).dropWhile isSpaceChar).reverse.dropWhile isSpaceChar).reverse = stripChars l
  rw [hdw, hrev, dropWhile_dropWhile, ← hrev, List.reverse_reverse]

/-- Every character of a normalized name is stable under all pipeline stages. -/
theorem mem_normalize_stable {s : List Char} {d : Char}
    (hd : d ∈ normalize_street_name s) : stableCharB d = true := by
  unfold normalize_street_name at hd
  by_cases hs : s = []
  · rw [if_pos hs] at hd; cases hd
  · rw [if_neg hs] at hd
    have hd' := mem_stripChars hd
    rw [List.mem_map] at hd'
    rcases hd' with ⟨x, hx, hxd⟩
    rw [List.mem_filter] at hx
    rcases hx with ⟨hxf, hxm⟩
    rw [List.mem_flatMap] at hxf
    rcases hxf with ⟨c, _, hxc⟩
    subst hxd
    exact stable_after_pipeline hxc (by simpa using hxm)

/-- On a string of stable characters the decompose/filter/lower stages are the
identity. -/
theorem pipeline_eq_self_of_stable {u : List Char}
    (h : ∀ d ∈ u, stableCharB d = true) :
    ((u.flatMap decompose).filter (fun c => !isMn c)).map lowerChar = u := by
  induction u with
  | nil => rfl
  | cons a t ih =>
    have ha := h a (List.mem_cons_self a t)
    have ht : ∀ d ∈ t, stableCharB d = true := fun d hd => h d (List.mem_cons_of_mem a hd)
    simp only [List.flatMap_cons, stableCharB_decompose ha, List.singleton_append,
      List.filter_cons, stableCharB_isMn ha, List.map_cons, stableCharB_lower ha]
    simp only [Bool.not_false, if_pos]
    rw [List.map_cons, stableCharB_lower ha, ih ht]

/-- C8: for every input string, including already-normalized and empty strings,
`normalize_street_name (normalize_street_name x) = normalize_street_name x`:
the NFD-decompose / drop-combining-marks / lowercase / trim pipeline of
`AddressParser.normalize_street_name` is idempotent. -/
theorem normalize_street_name_idempotent (s : List Char) :
    normalize_street_name (normalize_street_name s) = normalize_street_name s := by
  by_cases hs : s = []
  · subst hs
    simp [normalize_street_name]
  · have hstab : ∀ d ∈ normalize_street_name s, stableCharB d = true :=
      fun d hd => mem_normalize_stable hd
    by_cases hu : normalize_street_name s = []
    · rw [hu]; simp [normalize_street_name]
    · have hform : normalize_street_name s
          = stripChars (((s.flatMap decompose).filter (fun c => !isMn c)).map lowerChar) := by
        unfold normalize_street_name
        rw [if_neg hs]
      conv_lhs => rw [normalize_street_name, if_neg hu, pipeline_eq_self_of_stable hstab]
      rw [hform, stripChars_idem]

/-! Address parser (`address_parser.py`) and geobase search (`api/geobase.py`). -/

/-- Model of Python's `in` operator on strings: contiguous substring test. -/
def isSubstring (q : List Char) : List Char → Bool
  | [] => q.isEmpty
  | b :: t => q.isPrefixOf (b :: t) || isSubstring q t

theorem isSubstring_nil_left (n : List Char) : isSubstring [] n = true := by
  induction n with
  | nil => rfl
  | cons b t ih => simp [isSubstring, ih]

/-- ASCII digit test, modelling the `\d` of the street-number regex. -/
def isDigitChar (c : Char) : Bool := 48 ≤ c.toNat && c.toNat ≤ 57

/-- Numeric value of a digit run, modelling Python's `int(...)`. -/
def digitsToInt (l : List Char) : Int :=
  l.foldl (fun acc c => acc * 10 + ((c.toNat : Int) - 48)) 0

/-- Flattened street-type synonym map of `AddressParser.SYNONYM_TO_TYPE`,
in the insertion order produced by the class body. -/
def SYNONYM_TO_TYPE : List (List Char × List Char) := [
  ("avenue".data, "avenue".data), ("ave".data, "avenue".data),
  ("av".data, "avenue".data),
  ("boulevard".data, "boulevard".data), ("boul".data, "boulevard".data),
  ("blvd".data, "boulevard".data), ("bd".data, "boulevard".data),
  ("rue".data, "rue".data), ("street".data, "rue".data),
  ("st".data, "rue".data), ("r".data, "rue".data),
  ("chemin".data, "chemin".data), ("ch".data, "chemin".data),
  ("place".data, "place".data), ("pl".data, "place".data),
  ("cercle".data, "cercle".data), ("circle".data, "cercle".data),
  ("croissant".data, "croissant".data), ("crescent".data, "croissant".data),
  ("cres".data, "croissant".data),
  ("terrasse".data, "terrasse".data), ("terrace".data, "terrasse".data),
  ("terr".data, "terrasse".data),
  ("allee".data, "allee".data), ("allée".data, "allee".data),
  ("montee".data, "montee".data), ("montée".data, "montee".data),
  ("cote".data, "cote".data), ("côte".data, "cote".data)]

/-- Dictionary lookup in the synonym map. -/
def lookupSynonym (p : List Char) : Option (List Char) :=
  (SYNONYM_TO_TYPE.find? (fun e => e.1 == p)).map (fun e => e.2)

/-- Model of the regex `^\s*(\d+)\s+(.+)$` applied to the stripped address:
on success the captured number and the remainder, otherwise no number and the
whole input. -/
def extractLeadingNumber (l : List Char) : Option Int × List Char :=
  let digits := l.takeWhile isDigitChar
  let rest := l.dropWhile isDigitChar
  let tail := rest.dropWhile isSpaceChar
  if digits ≠ [] ∧ rest.takeWhile isSpaceChar ≠ [] ∧ tail ≠ [] then
    (some (digitsToInt digits), tail)
  else (none, l)

/-- Model of Python's argumentless `str.split`: split on whitespace runs,
dropping empty words. -/
def splitWsAux : List Char → List Char → List (List Char)
  | [], acc => if acc = [] then [] else [acc.reverse]
  | c :: t, acc =>
    if isSpaceChar c then
      if acc = [] then splitWsAux t [] else acc.reverse :: splitWsAux t []
    else splitWsAux t (c :: acc)

def splitWs (l : List Char) : List (List Char) := splitWsAux l []

/-- Scan of the token list for the first known street-type token
(`address_parser.py:86-97`): returns the canonical type (if any) and the other
tokens in order. -/
def findTypeAux (pre : List (List Char)) :
    List (List Char) → Option (List Char) × List (List Char)
  | [] => (none, pre.reverse)
  | p :: t =>
    match lookupSynonym p with
    | some main => (some main, pre.reverse ++ t)
    | none => findTypeAux (p :: pre) t

structure ParsedAddress where
  street_number : Option Int
  street_name : List Char
  street_type : Option (List Char)
  original : List Char
deriving DecidableEq, Repr

/-- Embedding of `AddressParser.parse_address` (`address_parser.py:37-110`). -/
def parse_address (full_address : List Char) : Option ParsedAddress :=
  if full_address = [] ∨ stripChars full_address = [] then none
  else
    let original := stripChars full_address
    let (street_number, remaining) := extractLeadingNumber original
    let remaining_normalized := normalize_street_name remaining
    let parts := splitWs remaining_normalized
    if parts = [] then none
    else
      let (street_type, street_name_parts) := findTypeAux [] parts
      let street_name := List.intercalate [' '] street_name_parts
      if street_name = [] then none
      else some ⟨street_number, street_name, street_type, original⟩

/-- Address-range bound as stored in the geobase mapping: Python `None`, a
non-numeric string on which `int(...)` raises, or a numeric value. -/
inductive AddrBound
  | absent
  | invalid
  | num (n : Int)
deriving DecidableEq, Repr

/-- One value of the geobase `COTE_RUE_ID → info` mapping
(`geobase.py:66-73`). -/
structure StreetInfo where
  nom_voie : List Char
  type_voie : List Char
  debut_adresse : AddrBound
  fin_adresse : AddrBound
  cote : List Char
  nom_ville : List Char
deriving DecidableEq, Repr

/-- State of a `GeobaseHandler`: loaded flag plus the id → info mapping,
modelled as an association list in dictionary insertion order. -/
structure GeobaseHandler where
  loaded : Bool
  mapping : List (Int × StreetInfo)
deriving DecidableEq, Repr

/-- Embedding of `GeobaseHandler.get_street_info` (`geobase.py:159-172`). -/
def get_street_info (gb : GeobaseHandler) (cote_rue_id : Int) : Option StreetInfo :=
  if !gb.loaded then none
  else (gb.mapping.find? (fun e => e.1 == cote_rue_id)).map (fun e => e.2)

/-- Embedding of `GeobaseHandler._is_in_address_range` (`geobase.py:336-364`). -/
def _is_in_address_range (street_number : Int) (debut fin : AddrBound) : Bool :=
  match debut, fin with
  | .num d, .num f => decide (d ≤ street_number ∧ street_number ≤ f)
  | _, _ => false

/-- Embedding of `GeobaseHandler._calculate_match_score` (`geobase.py:305-334`). -/
def _calculate_match_score (search_name geobase_name : List Char) : Int :=
  if search_name = geobase_name then 100
  else if geobase_name = search_name then 80
  else if search_name.isPrefixOf geobase_name then 60
  else if isSubstring search_name geobase_name then 40
  else 0

structure SearchMatch where
  cote_rue_id : Int
  info : StreetInfo
  match_score : Int
  in_range : Bool
deriving DecidableEq, Repr

/-- Sort key of `search_address`: `(not in_range, -match_score, cote_rue_id)`
with the boolean rendered as 0/1 as Python orders `False < True`. -/
def searchSortKey (m : SearchMatch) : Int × Int × Int :=
  ((if m.in_range then 0 else 1), -m.match_score, m.cote_rue_id)

/-- Lexicographic comparison of Python's tuple ordering on the sort key. -/
def tupleLe (a b : Int × Int × Int) : Bool :=
  decide (a.1 < b.1 ∨ (a.1 = b.1 ∧
    (a.2.1 < b.2.1 ∨ (a.2.1 = b.2.1 ∧ a.2.2 ≤ b.2.2))))

def searchLe (a b : SearchMatch) : Bool := tupleLe (searchSortKey a) (searchSortKey b)

/-- Propositional form of the sort comparison. -/
def searchRel (a b : SearchMatch) : Prop := searchLe a b = true

instance : DecidableRel searchRel := fun a b => instDecidableEqBool (searchLe a b) true

/-- Embedding of `GeobaseHandler.search_address` (`geobase.py:222-303`);
`List.mergeSort` models Python's stable `list.sort`. -/
def search_address (gb : GeobaseHandler) (street_number : Option Int)
    (street_name : List Char) : List SearchMatch :=
  if !gb.loaded then []
  else
    let search_name_normalized := normalize_street_name street_name
    let found := gb.mapping.filterMap (fun e =>
      if e.2.nom_voie = [] then none
      else
        let nom_voie_normalized := normalize_street_name e.2.nom_voie
        if !(isSubstring search_name_normalized nom_voie_normalized) then none
        else
          some ⟨e.1, e.2,
            _calculate_match_score search_name_normalized nom_voie_normalized,
            match street_number with
            | some sn => _is_in_address_range sn e.2.debut_adresse e.2.fin_adresse
            | none => false⟩)
    (found.insertionSort searchRel).take 10

/-! Properties of the search ordering and the search contract. -/

theorem searchLe_trans : ∀ a b c : SearchMatch,
    searchLe a b = true → searchLe b c = true → searchLe a c = true := by
  intro a b c hab hbc
  simp only [searchLe, tupleLe, decide_eq_true_eq] at *
  omega

theorem searchLe_total : ∀ a b : SearchMatch,
    (searchLe a b || searchLe b a) = true := by
  intro a b
  simp only [searchLe, tupleLe, Bool.or_eq_true, decide_eq_true_eq]
  omega

instance : IsTrans SearchMatch searchRel :=
  ⟨fun a b c hab hbc => searchLe_trans a b c hab hbc⟩

instance : IsTotal SearchMatch searchRel := by
  refine ⟨fun a b => ?_⟩
  have h := searchLe_total a b
  rw [Bool.or_eq_true] at h
  exact h

/-- Match built from a surviving catalog entry, as the spec describes it. -/
def buildMatch (q : List Char) (street_number : Option Int)
    (e : Int × StreetInfo) : SearchMatch :=
  ⟨e.1, e.2, _calculate_match_score q (normalize_street_name e.2.nom_voie),
    match street_number with
    | some sn => _is_in_address_range sn e.2.debut_adresse e.2.fin_adresse
    | none => false⟩

/-- Spec-side description of the search: keep exactly the entries with a
non-empty name whose normalized name contains the normalized query, sort
ascending by the tuple `(not in_range, -score, id)`, truncate to ten. -/
def search_address_spec (gb : GeobaseHandler) (street_number : Option Int)
    (street_name : List Char) : List SearchMatch :=
  let q := normalize_street_name street_name
  ((gb.mapping.filterMap (fun e =>
      if e.2.nom_voie ≠ [] ∧ isSubstring q (normalize_street_name e.2.nom_voie) = true
      then some (buildMatch q street_number e)
      else none)).insertionSort searchRel).take 10

theorem search_address_eq_spec (gb : GeobaseHandler) (sn : Option Int)
    (name : List Char) (hl : gb.loaded = true) :
    search_address gb sn name = search_address_spec gb sn name := by
  unfold search_address search_address_spec
  rw [hl]
  simp only [Bool.not_true, Bool.false_eq_true, if_false]
  have h := List.filterMap_congr (l := gb.mapping)
    (f := fun e =>
      if e.2.nom_voie = [] then none
      else
        if !(isSubstring (normalize_street_name name) (normalize_street_name e.2.nom_voie)) then none
        else
          some ⟨e.1, e.2,
            _calculate_match_score (normalize_street_name name) (normalize_street_name e.2.nom_voie),
            match sn with
            | some n => _is_in_address_range n e.2.debut_adresse e.2.fin_adresse
            | none => false⟩)
    (g := fun e =>
      if e.2.nom_voie ≠ [] ∧
          isSubstring (normalize_street_name name) (normalize_street_name e.2.nom_voie) = true
      then some (buildMatch (normalize_street_name name) sn e)
      else none)
    (fun e _ => by
      by_cases h1 : e.2.nom_voie = []
      · simp [h1]
      · by_cases h2 : isSubstring (normalize_street_name name)
            (normalize_street_name e.2.nom_voie) = true
        · simp [h1, h2, buildMatch]
        · simp [h1, h2])
  rw [h]

/-- Fixed catalog of the spec's determinism example:
`{name="Test", range 100-200, id=5}` and `{name="Testing", range 1-50, id=9}`. -/
def exampleCatalog : GeobaseHandler :=
  ⟨true, [(5, ⟨"Test".data, [], .num 100, .num 200, [], []⟩),
          (9, ⟨"Testing".data, [], .num 1, .num 50, [], []⟩)]⟩

/-- C4 counterexample: on the spec's fixed catalog, `search(150, "Test")`
returns id 9 with score 60 (the prefix rule fires, "testing" starts with
"test"), not score 40 as the claim states. -/
theorem search_address_example_score_is_60_not_40 :
    ((search_address exampleCatalog (some 150) "Test".data).map
      (fun m => m.match_score)) = [100, 60] ∧
    ¬ ((search_address exampleCatalog (some 150) "Test".data).map
      (fun m => m.match_score)) = [100, 40] := by
  decide

/-- C4 (amended): the search returns empty when the catalog is not loaded;
otherwise it keeps exactly the entries with a non-empty name whose normalized
name contains the normalized query, sorts them ascending by the tuple
`(not in_range, -score, id)` and truncates to the first 10; every returned
match arises from such a catalog entry; and on the fixed example catalog
`search(150, "Test")` returns id 5 first (in-range, score 100) then id 9
(not in-range, score 60 via the prefix rule). -/
theorem search_address_contract (gb : GeobaseHandler) (sn : Option Int)
    (name : List Char) :
    (gb.loaded = false → search_address gb sn name = []) ∧
    (gb.loaded = true → search_address gb sn name = search_address_spec gb sn name) ∧
    (search_address gb sn name).length ≤ 10 ∧
    List.Pairwise (fun a b => searchLe a b = true) (search_address gb sn name) ∧
    (∀ m ∈ search_address gb sn name, ∃ e ∈ gb.mapping,
      e.2.nom_voie ≠ [] ∧
      isSubstring (normalize_street_name name) (normalize_street_name e.2.nom_voie) = true ∧
      m = buildMatch (normalize_street_name name) sn e) ∧
    ((search_address exampleCatalog (some 150) "Test".data).map
      (fun m => (m.cote_rue_id, m.match_score, m.in_range)) =
        [(5, 100, true), (9, 60, false)]) := by
  refine ⟨?_, search_address_eq_spec gb sn name, ?_, ?_, ?_, by decide⟩
  · intro h
    unfold search_address
    rw [h]
    rfl
  · cases hL : gb.loaded with
    | false =>
      unfold search_address
      rw [hL]
      simp
    | true =>
      rw [search_address_eq_spec gb sn name hL]
      unfold search_address_spec
      simp only [List.length_take]
      omega
  · cases hL : gb.loaded with
    | false =>
      unfold search_address
      rw [hL]
      simp
    | true =>
      rw [search_address_eq_spec gb sn name hL]
      unfold search_address_spec
      refine List.Pairwise.sublist (List.take_sublist _ _) ?_
      exact List.sorted_insertionSort searchRel _
  · intro m hm
    cases hL : gb.loaded with
    | false =>
      unfold search_address at hm
      rw [hL] at hm
      simp at hm
    | true =>
      rw [search_address_eq_spec gb sn name hL] at hm
      unfold search_address_spec at hm
      have hm' := (List.take_sublist 10 _).subset hm
      rw [(List.perm_insertionSort searchRel _).mem_iff] at hm'
      rw [List.mem_filterMap] at hm'
      rcases hm' with ⟨e, he, hfe⟩
      by_cases hc : e.2.nom_voie ≠ [] ∧
          isSubstring (normalize_street_name name) (normalize_street_name e.2.nom_voie) = true
      · rw [if_pos hc] at hfe
        exact ⟨e, he, hc.1, hc.2, (Option.some.injEq _ _ ▸ hfe).symm⟩
      · rw [if_neg hc] at hfe
        cases hfe

/-- Witness for the search contract: the not-loaded case at a concrete
catalog. -/
theorem search_address_contract_witness :
    search_address ⟨false, [(7, ⟨"Test".data, [], .absent, .absent, [], []⟩)]⟩
      none "Test".data = [] :=
  (search_address_contract ⟨false, [(7, ⟨"Test".data, [], .absent, .absent, [], []⟩)]⟩
    none "Test".data).1 rfl

/-- C9: the match score of a surviving (substring-contained) entry is one of
100, 60, 40, and the rule returning 80 can never fire for any inputs: its
condition is the mirror image of the equality already tested by the rule
returning 100, so rule (2) is dead code. -/
theorem calculate_match_score_cases (q n : List Char) :
    _calculate_match_score q n ≠ 80 ∧
    (isSubstring q n = true →
      _calculate_match_score q n = 100 ∨ _calculate_match_score q n = 60 ∨
        _calculate_match_score q n = 40) := by
  constructor
  · unfold _calculate_match_score
    by_cases h1 : q = n
    · rw [if_pos h1]; omega
    · rw [if_neg h1, if_neg (fun hh => h1 hh.symm)]
      by_cases h3 : q.isPrefixOf n = true
      · rw [if_pos h3]; omega
      · rw [if_neg h3]
        by_cases h4 : isSubstring q n = true
        · rw [if_pos h4]; omega
        · rw [if_neg h4]; omega
  · intro hsub
    unfold _calculate_match_score
    by_cases h1 : q = n
    · rw [if_pos h1]; exact Or.inl rfl
    · rw [if_neg h1, if_neg (fun hh => h1 hh.symm)]
      by_cases h3 : q.isPrefixOf n = true
      · rw [if_pos h3]; exact Or.inr (Or.inl rfl)
      · rw [if_neg h3, if_pos hsub]; exact Or.inr (Or.inr rfl)

/-- Witness for the score cases at a concrete contained query. -/
theorem calculate_match_score_cases_witness :
    _calculate_match_score ['t'] ['t', 'e'] = 100 ∨
      _calculate_match_score ['t'] ['t', 'e'] = 60 ∨
        _calculate_match_score ['t'] ['t', 'e'] = 40 :=
  (calculate_match_score_cases ['t'] ['t', 'e']).2 (by decide)

theorem score_empty_query (n : List Char) :
    _calculate_match_score [] n = if n = [] then 100 else 60 := by
  unfold _calculate_match_score
  by_cases h : n = []
  · subst h
    rfl
  · rw [if_neg h, if_neg (fun hh => h hh.symm), if_neg h,
      if_pos (by simp [List.isPrefixOf_nil_left])]

/-- Catalog with a single entry whose raw name is non-empty whitespace, so the
name survives the emptiness filter but normalizes to the empty string. -/
def whitespaceNameCatalog : GeobaseHandler :=
  ⟨true, [(1, ⟨[' '], [], .absent, .absent, [], []⟩)]⟩

/-- C10 counterexample: with an empty query, an entry whose non-empty name
normalizes to the empty string scores 100 (exact-match rule), not 60. -/
theorem search_empty_query_score_not_60 :
    ((search_address whitespaceNameCatalog none []).map (fun m => m.match_score))
      = [100] ∧
    ¬ (∀ m ∈ search_address whitespaceNameCatalog none [], m.match_score = 60) := by
  decide

/-- C10 (amended): with a loaded catalog, a query that normalizes to the empty
string matches every entry whose raw name is non-empty (the empty string is
contained in and a prefix of every name); each surviving entry scores 60,
except entries whose own name also normalizes to empty, which score 100 via
the exact-match rule; the result is the first 10 under the usual ordering, with
no special-casing of the empty query. -/
theorem search_address_empty_query (gb : GeobaseHandler) (sn : Option Int)
    (name : List Char) (hq : normalize_street_name name = [])
    (hl : gb.loaded = true) :
    search_address gb sn name =
      ((gb.mapping.filterMap (fun e =>
        if e.2.nom_voie = [] then none
        else some ⟨e.1, e.2,
          (if normalize_street_name e.2.nom_voie = [] then 100 else 60),
          match sn with
          | some n => _is_in_address_range n e.2.debut_adresse e.2.fin_adresse
          | none => false⟩)).insertionSort searchRel).take 10 := by
  rw [search_address_eq_spec gb sn name hl]
  show ((gb.mapping.filterMap (fun e =>
      if e.2.nom_voie ≠ [] ∧ isSubstring (normalize_street_name name)
          (normalize_street_name e.2.nom_voie) = true
      then some (buildMatch (normalize_street_name name) sn e)
      else none)).insertionSort searchRel).take 10 = _
  rw [hq]
  have h := List.filterMap_congr (l := gb.mapping)
    (f := fun e =>
      if e.2.nom_voie ≠ [] ∧ isSubstring [] (normalize_street_name e.2.nom_voie) = true
      then some (buildMatch [] sn e)
      else none)
    (g := fun e =>
      if e.2.nom_voie = [] then none
      else some ⟨e.1, e.2,
        (if normalize_street_name e.2.nom_voie = [] then 100 else 60),
        match sn with
        | some n => _is_in_address_range n e.2.debut_adresse e.2.fin_adresse
        | none => false⟩)
    (fun e _ => by
      by_cases h1 : e.2.nom_voie = []
      · simp [h1]
      · simp [h1, isSubstring_nil_left, buildMatch, score_empty_query])
  rw [h]

/-- Witness for the empty-query search at a concrete catalog. -/
theorem search_address_empty_query_witness :
    search_address ⟨true, [(2, ⟨"ab".data, [], .absent, .absent, [], []⟩)]⟩
        none [] =
      [⟨2, ⟨"ab".data, [], .absent, .absent, [], []⟩, 60, false⟩] := by
  rw [search_address_empty_query
    ⟨true, [(2, ⟨"ab".data, [], .absent, .absent, [], []⟩)]⟩ none [] (by decide) rfl]
  decide

/-! Coordinator state machine (`coordinator.py`) and the parking-ban binary
sensor (`binary_sensor.py`).  Instants are modelled by `Int`; the
timezone-awareness reconciliation of `_is_within_interval` collapses in the
model because all model datetimes live on one timeline. -/

/-- Symbolic snow-removal states, mirroring the string constants of
`const.py`. -/
inductive SState
  | enneige
  | deneige
  | planifie
  | replanifie
  | sera_replanifie
  | en_cours
  | degage
  | unknown
  | stationnement_interdit
deriving DecidableEq, Repr

/-- Embedding of the `STATE_MAP` dictionary of `const.py:37-45`. -/
def STATE_MAP (code : Int) : Option SState :=
  if code = 0 then some .enneige
  else if code = 1 then some .deneige
  else if code = 2 then some .planifie
  else if code = 3 then some .replanifie
  else if code = 4 then some .sera_replanifie
  else if code = 5 then some .en_cours
  else if code = 10 then some .degage
  else none

/-- Embedding of `SnowRemovalCoordinator._is_within_interval`
(`coordinator.py:268-292`): inclusive containment of the instant. -/
def _is_within_interval (now start stop : Int) : Bool :=
  decide (start ≤ now ∧ now ≤ stop)

/-- Containment guarded by presence of both bounds, mirroring the nested
`if date_deb and date_fin: if self._is_within_interval(...)` pattern (Python
datetimes are always truthy). -/
def optWithin (now : Int) (d1 d2 : Option Int) : Bool :=
  match d1, d2 with
  | some s, some e => _is_within_interval now s e
  | _, _ => false

/-- Embedding of `SnowRemovalCoordinator.derive_state_with_parking_ban`
(`coordinator.py:224-266`). -/
def derive_state_with_parking_ban (now : Int) (etat_code : Int)
    (date_deb_planif date_fin_planif date_deb_replanif date_fin_replanif :
      Option Int) : SState :=
  let base_state := (STATE_MAP etat_code).getD .enneige
  if base_state ≠ .planifie ∧ base_state ≠ .replanifie then base_state
  else if base_state = .replanifie ∧
      optWithin now date_deb_replanif date_fin_replanif = true then
    .stationnement_interdit
  else if optWithin now date_deb_planif date_fin_planif = true then
    .stationnement_interdit
  else base_state

/-- Street data as stored by the coordinator update
(`coordinator.py:114-123`), restricted to the fields the ban sensor reads;
the `state` field is `STATE_MAP.get(etat_code, "unknown")`. -/
structure StreetData where
  state : SState
  date_deb_planif : Option Int
  date_fin_planif : Option Int
  date_deb_replanif : Option Int
  date_fin_replanif : Option Int
deriving DecidableEq, Repr

/-- Embedding of `ParkingBanSensor.is_on` (`binary_sensor.py:125-169`);
`none` models an untracked street (falsy `street_data`). -/
def parking_ban_is_on (now : Int) (street_data : Option StreetData) : Bool :=
  match street_data with
  | none => false
  | some d =>
    if d.state = .en_cours then true
    else if d.state = .planifie then
      match d.date_deb_planif, d.date_fin_planif with
      | some s, some e => _is_within_interval now s e
      | _, _ => false
    else if d.state = .replanifie then
      match d.date_deb_replanif, d.date_fin_replanif with
      | some s, some e => _is_within_interval now s e
      | _, _ =>
        match d.date_deb_planif, d.date_fin_planif with
        | some s, some e => _is_within_interval now s e
        | _, _ => false
    else false

/-- C2: for state code 3 (rescheduled), a rescheduled interval with both bounds
present containing the instant yields the parking-forbidden state regardless of
the planned interval; otherwise the planned interval is checked the same way;
otherwise the base rescheduled state is returned unchanged. -/
theorem derive_rescheduled_ban (now : Int) (ddp dfp ddr dfr : Option Int) :
    (∀ s e, ddr = some s → dfr = some e → s ≤ now → now ≤ e →
      derive_state_with_parking_ban now 3 ddp dfp ddr dfr = .stationnement_interdit) ∧
    (optWithin now ddr dfr = false →
      ∀ s e, ddp = some s → dfp = some e → s ≤ now → now ≤ e →
        derive_state_with_parking_ban now 3 ddp dfp ddr dfr = .stationnement_interdit) ∧
    (optWithin now ddr dfr = false → optWithin now ddp dfp = false →
      derive_state_with_parking_ban now 3 ddp dfp ddr dfr = .replanifie) := by
  refine ⟨?_, ?_, ?_⟩
  · intro s e hs he h1 h2
    subst hs; subst he
    simp [derive_state_with_parking_ban, STATE_MAP, optWithin, _is_within_interval,
      h1, h2]
  · intro hr s e hs he h1 h2
    subst hs; subst he
    simp [derive_state_with_parking_ban, STATE_MAP, optWithin, _is_within_interval,
      hr, h1, h2]
  · intro hr hp
    simp [derive_state_with_parking_ban, STATE_MAP, hr, hp]

/-- Witness for the rescheduled-ban derivation: the instant 5 lies in the
rescheduled interval [0, 10] but not in the planned interval [20, 30], and the
derived state is parking-forbidden. -/
theorem derive_rescheduled_ban_witness :
    derive_state_with_parking_ban 5 3 (some 20) (some 30) (some 0) (some 10)
      = .stationnement_interdit :=
  (derive_rescheduled_ban 5 (some 20) (some 30) (some 0) (some 10)).1 0 10
    rfl rfl (by decide) (by decide)

/-- C3: state code 5 (in-progress) is reported as parking-banned by the ban
sensor regardless of intervals while the derivation keeps its base state
`en_cours` unchanged; state code 10 (clear) is unaffected by any interval both
in the derivation and in the ban sensor; and in general any base state other
than planned/rescheduled is returned unchanged by the derivation. -/
theorem derive_non_planned_unchanged (now : Int) (ddp dfp ddr dfr : Option Int) :
    parking_ban_is_on now (some ⟨(STATE_MAP 5).getD .unknown, ddp, dfp, ddr, dfr⟩)
      = true ∧
    derive_state_with_parking_ban now 5 ddp dfp ddr dfr = .en_cours ∧
    derive_state_with_parking_ban now 10 ddp dfp ddr dfr = .degage ∧
    parking_ban_is_on now (some ⟨(STATE_MAP 10).getD .unknown, ddp, dfp, ddr, dfr⟩)
      = false ∧
    (∀ etat : Int, (STATE_MAP etat).getD .enneige ≠ .planifie →
      (STATE_MAP etat).getD .enneige ≠ .replanifie →
      derive_state_with_parking_ban now etat ddp dfp ddr dfr
        = (STATE_MAP etat).getD .enneige) := by
  refine ⟨?_, ?_, ?_, ?_, ?_⟩
  · simp [parking_ban_is_on, STATE_MAP]
  · simp [derive_state_with_parking_ban, STATE_MAP]
  · simp [derive_state_with_parking_ban, STATE_MAP]
  · simp [parking_ban_is_on, STATE_MAP]
  · intro etat h1 h2
    unfold derive_state_with_parking_ban
    rw [if_pos ⟨h1, h2⟩]

/-- Witness instantiating the unchanged-state clause at state code 4. -/
theorem derive_non_planned_unchanged_witness :
    derive_state_with_parking_ban 7 4 (some 0) (some 10) (some 0) (some 10)
      = .sera_replanifie :=
  ((derive_non_planned_unchanged 7 (some 0) (some 10) (some 0) (some 10)).2.2.2.2 4
    (by decide) (by decide)).trans (by decide)

/-! Vehicle resolver (`vehicle_resolver.py`).  Coordinates and distances are
rationals; the two float leaf functions (`_haversine_distance` and
`_point_to_segment_distance`) are abstract parameters of the environment, the
surrounding control flow is translated faithfully.  `WithTop ℚ` models the
`float("inf")` sentinel. -/

/-- Geometry entry of the GeoJSON handler: the `coordinates` list of
`[lon, lat]` pairs. -/
structure Geometry where
  coordinates : List (ℚ × ℚ)
deriving DecidableEq

/-- State of a `GeoJSONHandler`: loaded flag plus the id → geometry map in
dictionary insertion order. -/
structure GeoJSONHandler where
  loaded : Bool
  geometry_map : List (Int × Geometry)
deriving DecidableEq

/-- Embedding of `GeoJSONHandler.get_geometry` (`geojson_handler.py:219-231`). -/
def get_geometry (gj : GeoJSONHandler) (cote_rue_id : Int) : Option Geometry :=
  if !gj.loaded then none
  else (gj.geometry_map.find? (fun e => e.1 == cote_rue_id)).map (fun e => e.2)

/-- Resolution method tag. -/
inductive ResolverMethod
  | address_attribute
  | gps
deriving DecidableEq, Repr

/-- Mutable state of a `VehicleAddressResolver` (`vehicle_resolver.py:62-70`). -/
structure ResolverState where
  current_cote_rue_id : Option Int
  current_street_name : Option (List Char)
  current_street_side : Option (List Char)
  last_resolution : Option Int
  resolution_method : Option ResolverMethod
  source_available : Bool
  last_latitude : Option ℚ
  last_longitude : Option ℚ
deriving DecidableEq

/-- Environment of a resolver: the two handlers, the abstract numeric leaves
(`hav lat1 lon1 lat2 lon2` for `_haversine_distance`, `segDist plat plon
s_lat s_lon e_lat e_lon` for `_point_to_segment_distance`), and whether an
`on_street_change` callback is registered. -/
structure ResolverEnv where
  geobase : GeobaseHandler
  geojson : Option GeoJSONHandler
  hav : ℚ → ℚ → ℚ → ℚ → ℚ
  segDist : ℚ → ℚ → ℚ → ℚ → ℚ → ℚ → ℚ × ℚ
  has_callback : Bool

/-- Montreal bounding box `(min_lat, max_lat, min_lon, max_lon)`
(`vehicle_resolver.py:22-27`), written as reduced fractions; the theorem
`MONTREAL_BOUNDS_eq` identifies them with the decimal literals of the source. -/
def MONTREAL_BOUNDS : ℚ × ℚ × ℚ × ℚ :=
  (⟨227, 5, by norm_num, by norm_num⟩, ⟨457, 10, by norm_num, by norm_num⟩,
   ⟨-3699, 50, by norm_num, by norm_num⟩, ⟨-7347, 100, by norm_num, by norm_num⟩)

theorem MONTREAL_BOUNDS_eq :
    MONTREAL_BOUNDS = ((45.40 : ℚ), (45.70 : ℚ), (-73.98 : ℚ), (-73.47 : ℚ)) := by
  unfold MONTREAL_BOUNDS
  rw [Prod.mk.injEq, Prod.mk.injEq, Prod.mk.injEq]
  refine ⟨?_, ?_, ?_, ?_⟩ <;>
    · rw [Rat.mk'_eq_divInt, Rat.divInt_eq_div]
      norm_num

/-- Minimum movement (meters) to trigger re-resolution
(`vehicle_resolver.py:30`). -/
def MIN_DISTANCE_THRESHOLD : ℚ := 5

/-- Embedding of `VehicleAddressResolver._is_in_montreal`
(`vehicle_resolver.py:483-498`). -/
def _is_in_montreal (latitude longitude : ℚ) : Bool :=
  decide (MONTREAL_BOUNDS.1 ≤ latitude ∧ latitude ≤ MONTREAL_BOUNDS.2.1 ∧
    MONTREAL_BOUNDS.2.2.1 ≤ longitude ∧ longitude ≤ MONTREAL_BOUNDS.2.2.2)

/-- First-character uppercase mapping used by Python's `str.capitalize`. -/
def upperChar (c : Char) : Char :=
  match lowerTable.find? (fun e => e.2 == c) with
  | some e => e.1
  | none => c

/-- Model of `str.capitalize`: first character upper-cased, rest lower-cased. -/
def capitalizeChars : List Char → List Char
  | [] => []
  | c :: t => upperChar c :: t.map lowerChar

/-- Embedding of `VehicleAddressResolver._format_street_name`
(`vehicle_resolver.py:463-481`). -/
def _format_street_name (street_info : StreetInfo) : List Char :=
  let parts :=
    (if street_info.type_voie ≠ [] then [capitalizeChars street_info.type_voie] else [])
      ++ (if street_info.nom_voie ≠ [] then [street_info.nom_voie] else [])
  if parts = [] then "Unknown".data else List.intercalate [' '] parts

/-- Embedding of `VehicleAddressResolver._point_to_linestring_distance`
(`vehicle_resolver.py:332-384`): minimum over the segments of the abstract
point-to-segment distance, with the zero-total-length early return of
`(inf, 0.0)` modelled by `⊤`. -/
def _point_to_linestring_distance (env : ResolverEnv) (lat lon : ℚ)
    (coordinates : List (ℚ × ℚ)) : WithTop ℚ × ℚ :=
  let segs := coordinates.zip coordinates.tail
  let segment_lengths := segs.map (fun s => env.hav s.1.2 s.1.1 s.2.2 s.2.1)
  let total_length := segment_lengths.sum
  if total_length = 0 then (⊤, 0)
  else
    let r := (segs.zip segment_lengths).foldl
      (fun acc sl =>
        let d := env.segDist lat lon sl.1.1.2 sl.1.1.1 sl.1.2.2 sl.1.2.1
        if (d.1 : WithTop ℚ) < acc.1 then
          ((d.1 : WithTop ℚ), (acc.2.2 + d.2 * sl.2) / total_length, acc.2.2 + sl.2)
        else (acc.1, acc.2.1, acc.2.2 + sl.2))
      ((⊤ : WithTop ℚ), (0 : ℚ), (0 : ℚ))
    (r.1, r.2.1)

/-- Best candidate tracked by `_find_nearest_street`. -/
structure BestMatch where
  cote_rue_id : Int
  street_name : List Char
  distance : WithTop ℚ
  street_side : Option (List Char)
deriving DecidableEq

/-- Distance of the running best (`float("inf")` when there is none). -/
def bestDistance : Option BestMatch → WithTop ℚ
  | none => ⊤
  | some b => b.distance

/-- Candidate record built when a street improves on the running best
(`vehicle_resolver.py:303-319`). -/
def mkBestMatch (env : ResolverEnv) (cote_rue_id : Int) (d : WithTop ℚ) :
    BestMatch :=
  match get_street_info env.geobase cote_rue_id with
  | some street_info =>
    ⟨cote_rue_id, _format_street_name street_info, d, some street_info.cote⟩
  | none => ⟨cote_rue_id, "Street ".data ++ (toString cote_rue_id).data, d, none⟩

/-- One iteration of the candidate loop of `_find_nearest_street`
(`vehicle_resolver.py:289-319`). -/
def nearestStep (env : ResolverEnv) (gj : GeoJSONHandler) (lat lon : ℚ)
    (acc : Option BestMatch) (cote_rue_id : Int) : Option BestMatch :=
  match get_geometry gj cote_rue_id with
  | none => acc
  | some geometry =>
    if geometry.coordinates.length < 2 then acc
    else if (_point_to_linestring_distance env lat lon geometry.coordinates).1
        < bestDistance acc then
      some (mkBestMatch env cote_rue_id
        (_point_to_linestring_distance env lat lon geometry.coordinates).1)
    else acc

/-- Embedding of `VehicleAddressResolver._find_nearest_street`
(`vehicle_resolver.py:270-330`). -/
def _find_nearest_street (env : ResolverEnv) (gj : GeoJSONHandler)
    (lat lon : ℚ) :
    Option (Int × List Char × WithTop ℚ × Option (List Char)) :=
  match (gj.geometry_map.map (fun e => e.1)).foldl
      (nearestStep env gj lat lon) none with
  | some b =>
    if b.distance < ((100 : ℚ) : WithTop ℚ) then
      some (b.cote_rue_id, b.street_name, b.distance, b.street_side)
    else none
  | none => none

/-- Embedding of `VehicleAddressResolver._update_resolution`
(`vehicle_resolver.py:436-461`): update the state and emit the change
notification when the id changed and a callback is registered. -/
def _update_resolution (env : ResolverEnv) (now : Int) (rs : ResolverState)
    (cote_rue_id : Option Int) (street_name : Option (List Char))
    (method : ResolverMethod) (street_side : Option (List Char) := none) :
    ResolverState × List (Option Int × Option Int) :=
  let old_id := rs.current_cote_rue_id
  let rs' : ResolverState :=
    { rs with
      current_cote_rue_id := cote_rue_id
      current_street_name := street_name
      current_street_side := street_side
      last_resolution := some now
      resolution_method := some method }
  if old_id ≠ cote_rue_id ∧ env.has_callback = true then (rs', [(old_id, cote_rue_id)])
  else (rs', [])

/-- Embedding of `VehicleAddressResolver._async_resolve_from_address`
(`vehicle_resolver.py:168-207`). -/
def _async_resolve_from_address (env : ResolverEnv) (now : Int)
    (rs : ResolverState) (address : List Char) :
    ResolverState × List (Option Int × Option Int) :=
  match parse_address address with
  | none => _update_resolution env now rs none none .address_attribute
  | some parsed =>
    if parsed.street_name = [] then
      _update_resolution env now rs none none .address_attribute
    else
      match search_address env.geobase parsed.street_number parsed.street_name with
      | [] => _update_resolution env now rs none none .address_attribute
      | best_match :: _ =>
        _update_resolution env now rs (some best_match.cote_rue_id)
          (some (_format_street_name best_match.info)) .address_attribute

/-- Continuation of `_async_resolve_from_gps` past the debounce check
(`vehicle_resolver.py:242-268`). -/
def resolveGpsCore (env : ResolverEnv) (now : Int) (rs : ResolverState)
    (latitude longitude : ℚ) :
    ResolverState × List (Option Int × Option Int) :=
  let rs := { rs with last_latitude := some latitude, last_longitude := some longitude }
  match env.geojson with
  | none => _update_resolution env now rs none none .gps
  | some gj =>
    if gj.loaded = false then _update_resolution env now rs none none .gps
    else
      match _find_nearest_street env gj latitude longitude with
      | some r =>
        _update_resolution env now rs (some r.1) (some r.2.1) .gps r.2.2.2
      | none => _update_resolution env now rs none none .gps

/-- Embedding of `VehicleAddressResolver._async_resolve_from_gps`
(`vehicle_resolver.py:209-268`): bounding-box rejection, movement debounce,
then nearest-street lookup. -/
def _async_resolve_from_gps (env : ResolverEnv) (now : Int) (rs : ResolverState)
    (latitude longitude : ℚ) :
    ResolverState × List (Option Int × Option Int) :=
  if _is_in_montreal latitude longitude = false then
    _update_resolution env now rs none none .gps
  else
    match rs.last_latitude, rs.last_longitude with
    | some plat, some plon =>
      if env.hav plat plon latitude longitude < MIN_DISTANCE_THRESHOLD then (rs, [])
      else resolveGpsCore env now rs latitude longitude
    | _, _ => resolveGpsCore env now rs latitude longitude

/-- Address-bearing attributes of the tracked source entity, plus GPS
coordinates; unset or non-string values are `none`. -/
structure Attrs where
  street : Option (List Char)
  formatted_address : Option (List Char)
  address : Option (List Char)
  latitude : Option ℚ
  longitude : Option ℚ
deriving DecidableEq

/-- One attribute probe of `_extract_address_from_attributes`: the value must
be a non-empty string whose strip is non-empty. -/
def checkAddrValue (v : Option (List Char)) : Option (List Char) :=
  match v with
  | some s => if s ≠ [] ∧ stripChars s ≠ [] then some (stripChars s) else none
  | none => none

/-- Embedding of `VehicleAddressResolver._extract_address_from_attributes`
(`vehicle_resolver.py:148-166`), probing `KNOWN_ADDRESS_ATTRIBUTES` in
priority order. -/
def _extract_address_from_attributes (a : Attrs) : Option (List Char) :=
  match checkAddrValue a.street with
  | some r => some r
  | none =>
    match checkAddrValue a.formatted_address with
    | some r => some r
    | none => checkAddrValue a.address

/-- Tracked-entity state delivered by a location-update event. -/
structure SourceState where
  state : List Char
  attributes : Attrs
deriving DecidableEq

/-- Embedding of `VehicleAddressResolver._async_resolve_from_state`
(`vehicle_resolver.py:112-146`): availability check, then address strategy,
then GPS strategy. -/
def _async_resolve_from_state (env : ResolverEnv) (now : Int)
    (rs : ResolverState) (state : SourceState) :
    ResolverState × List (Option Int × Option Int) :=
  if state.state = "unavailable".data ∨ state.state = "unknown".data then
    ({ rs with source_available := false }, [])
  else
    let rs := { rs with source_available := true }
    match _extract_address_from_attributes state.attributes with
    | some address => _async_resolve_from_address env now rs address
    | none =>
      match state.attributes.latitude, state.attributes.longitude with
      | some latitude, some longitude =>
        _async_resolve_from_gps env now rs latitude longitude
      | _, _ => (rs, [])

/-- Embedding of `VehicleAddressResolver._async_on_state_change`
(`vehicle_resolver.py:101-110`): a missing new state only clears the
availability flag. -/
def _async_on_state_change (env : ResolverEnv) (now : Int) (rs : ResolverState)
    (new_state : Option SourceState) :
    ResolverState × List (Option Int × Option Int) :=
  match new_state with
  | none => ({ rs with source_available := false }, [])
  | some s => _async_resolve_from_state env now rs s

/-! Change-notification discipline (claim about `_update_resolution` and its
callers). -/

/-- Specification of the notifications a resolver step may emit, relative to
the id held before the step. -/
def NotifSpec (env : ResolverEnv) (old_id : Option Int)
    (r : ResolverState × List (Option Int × Option Int)) : Prop :=
  r.2.length ≤ 1 ∧
  (∀ p ∈ r.2, env.has_callback = true ∧ p.1 = old_id ∧
    p.2 = r.1.current_cote_rue_id ∧ p.1 ≠ p.2) ∧
  (env.has_callback = true → r.1.current_cote_rue_id ≠ old_id → r.2 ≠ [])

theorem notifSpec_update (env : ResolverEnv) (now : Int) (rs : ResolverState)
    (cote_rue_id : Option Int) (street_name : Option (List Char))
    (method : ResolverMethod) (street_side : Option (List Char)) :
    NotifSpec env rs.current_cote_rue_id
      (_update_resolution env now rs cote_rue_id street_name method street_side) := by
  unfold NotifSpec _update_resolution
  by_cases h : rs.current_cote_rue_id ≠ cote_rue_id ∧ env.has_callback = true
  · rw [if_pos h]
    refine ⟨by simp, ?_, fun _ _ => by simp⟩
    intro p hp
    rw [List.mem_singleton] at hp
    subst hp
    exact ⟨h.2, rfl, rfl, h.1⟩
  · rw [if_neg h]
    refine ⟨by simp, by simp, ?_⟩
    intro hcb hne
    exact absurd ⟨fun he => hne (by simp [he]), hcb⟩ h

theorem notifSpec_unchanged (env : ResolverEnv) (old_id : Option Int)
    (r : ResolverState × List (Option Int × Option Int))
    (h1 : r.2 = []) (h2 : r.1.current_cote_rue_id = old_id) :
    NotifSpec env old_id r :=
  ⟨by simp [h1], by simp [h1], fun _ hne => absurd h2 hne⟩

theorem notifSpec_address (env : ResolverEnv) (now : Int) (rs : ResolverState)
    (address : List Char) :
    NotifSpec env rs.current_cote_rue_id
      (_async_resolve_from_address env now rs address) := by
  unfold _async_resolve_from_address
  cases parse_address address with
  | none => exact notifSpec_update env now rs none none .address_attribute none
  | some parsed =>
    dsimp only
    by_cases hn : parsed.street_name = []
    · rw [if_pos hn]
      exact notifSpec_update env now rs none none .address_attribute none
    · rw [if_neg hn]
      cases search_address env.geobase parsed.street_number parsed.street_name with
      | nil => exact notifSpec_update env now rs none none .address_attribute none
      | cons b t =>
        exact notifSpec_update env now rs (some b.cote_rue_id)
          (some (_format_street_name b.info)) .address_attribute none

theorem notifSpec_gpsCore (env : ResolverEnv) (now : Int) (rs : ResolverState)
    (latitude longitude : ℚ) :
    NotifSpec env rs.current_cote_rue_id
      (resolveGpsCore env now rs latitude longitude) := by
  unfold resolveGpsCore
  cases env.geojson with
  | none =>
    exact notifSpec_update env now
      { rs with last_latitude := some latitude, last_longitude := some longitude }
      none none .gps none
  | some gj =>
    dsimp only
    by_cases hl : gj.loaded = false
    · rw [if_pos hl]
      exact notifSpec_update env now
        { rs with last_latitude := some latitude, last_longitude := some longitude }
        none none .gps none
    · rw [if_neg hl]
      cases _find_nearest_street env gj latitude longitude with
      | none =>
        exact notifSpec_update env now
          { rs with last_latitude := some latitude, last_longitude := some longitude }
          none none .gps none
      | some r =>
        exact notifSpec_update env now
          { rs with last_latitude := some latitude, last_longitude := some longitude }
          (some r.1) (some r.2.1) .gps r.2.2.2

theorem notifSpec_gps (env : ResolverEnv) (now : Int) (rs : ResolverState)
    (latitude longitude : ℚ) :
    NotifSpec env rs.current_cote_rue_id
      (_async_resolve_from_gps env now rs latitude longitude) := by
  unfold _async_resolve_from_gps
  by_cases hb : _is_in_montreal latitude longitude = false
  · rw [if_pos hb]
    exact notifSpec_update env now rs none none .gps none
  · rw [if_neg hb]
    cases h1 : rs.last_latitude with
    | none =>
      simp only [h1]
      exact notifSpec_gpsCore env now rs latitude longitude
    | some plat =>
      cases h2 : rs.last_longitude with
      | none =>
        simp only [h1, h2]
        exact notifSpec_gpsCore env now rs latitude longitude
      | some plon =>
        simp only [h1, h2]
        by_cases hd : env.hav plat plon latitude longitude < MIN_DISTANCE_THRESHOLD
        · rw [if_pos hd]
          exact notifSpec_unchanged env _ _ rfl rfl
        · rw [if_neg hd]
          exact notifSpec_gpsCore env now rs latitude longitude

theorem notifSpec_state (env : ResolverEnv) (now : Int) (rs : ResolverState)
    (s : SourceState) :
    NotifSpec env rs.current_cote_rue_id
      (_async_resolve_from_state env now rs s) := by
  unfold _async_resolve_from_state
  by_cases h : s.state = "unavailable".data ∨ s.state = "unknown".data
  · rw [if_pos h]
    exact notifSpec_unchanged env _ _ rfl rfl
  · rw [if_neg h]
    cases _extract_address_from_attributes s.attributes with
    | some address =>
      exact notifSpec_address env now { rs with source_available := true } address
    | none =>
      cases s.attributes.latitude with
      | none => exact notifSpec_unchanged env _ _ rfl rfl
      | some latitude =>
        cases s.attributes.longitude with
        | none => exact notifSpec_unchanged env _ _ rfl rfl
        | some longitude =>
          exact notifSpec_gps env now { rs with source_available := true }
            latitude longitude

theorem notifSpec_event (env : ResolverEnv) (now : Int) (rs : ResolverState)
    (ev : Option SourceState) :
    NotifSpec env rs.current_cote_rue_id
      (_async_on_state_change env now rs ev) := by
  cases ev with
  | none => exact notifSpec_unchanged env _ _ rfl rfl
  | some s => exact notifSpec_state env now rs s

/-- C6: on every single location-update event the registered change
notification is invoked at most once, and exactly with
`(old_id, new_id)` when the newly resolved street-side-id differs from the
previously held one — including null transitions; nothing fires when the id is
unchanged or no callback is registered. -/
theorem resolver_notification_discipline (env : ResolverEnv) (now : Int)
    (rs : ResolverState) (ev : Option SourceState) :
    (_async_on_state_change env now rs ev).2.length ≤ 1 ∧
    (∀ p ∈ (_async_on_state_change env now rs ev).2,
      env.has_callback = true ∧ p.1 = rs.current_cote_rue_id ∧
      p.2 = (_async_on_state_change env now rs ev).1.current_cote_rue_id ∧
      p.1 ≠ p.2) ∧
    (env.has_callback = true →
      (_async_on_state_change env now rs ev).1.current_cote_rue_id
        ≠ rs.current_cote_rue_id →
      (_async_on_state_change env now rs ev).2 ≠ []) :=
  notifSpec_event env now rs ev

/-- Concrete environment with a loaded, empty geobase and a registered
callback. -/
def notifWitnessEnv : ResolverEnv :=
  ⟨⟨true, []⟩, none, fun _ _ _ _ => 0, fun _ _ _ _ _ _ => (0, 0), true⟩

/-- State currently resolved to street 3. -/
def notifWitnessState : ResolverState :=
  ⟨some 3, none, none, none, none, true, none, none⟩

/-- Event carrying an address that parses but matches nothing. -/
def notifWitnessEvent : Option SourceState :=
  some ⟨"ok".data, ⟨some "123 main".data, none, none, none, none⟩⟩

/-- Witness for the notification discipline: an event that changes the
resolved id from `some 3` to `none` does emit a notification. -/
theorem resolver_notification_discipline_witness :
    (_async_on_state_change notifWitnessEnv 0 notifWitnessState notifWitnessEvent).2
      ≠ [] :=
  (resolver_notification_discipline notifWitnessEnv 0 notifWitnessState
    notifWitnessEvent).2.2 rfl (by decide)


/-! Rational constants for the coordinates used in concrete scenarios, given
as explicitly reduced fractions so that the kernel can evaluate comparisons
(`norm_num` ties each to its decimal value). -/

def q45_41 : ℚ := ⟨4541, 100, by norm_num, by norm_num⟩

def q45_42 : ℚ := ⟨2271, 50, by norm_num, by norm_num⟩

def qm73_9 : ℚ := ⟨-739, 10, by norm_num, by norm_num⟩

theorem q45_41_eq : q45_41 = 45.41 := by
  unfold q45_41; rw [Rat.mk'_eq_divInt, Rat.divInt_eq_div]; norm_num

theorem q45_42_eq : q45_42 = 45.42 := by
  unfold q45_42; rw [Rat.mk'_eq_divInt, Rat.divInt_eq_div]; norm_num

theorem qm73_9_eq : qm73_9 = -73.9 := by
  unfold qm73_9; rw [Rat.mk'_eq_divInt, Rat.divInt_eq_div]; norm_num

/-- C5 counterexample environment: the abstract haversine distance between the
stored and the new coordinate is exactly 5 meters; no GeoJSON handler. -/
def debounceEnv : ResolverEnv :=
  ⟨⟨true, []⟩, none, fun _ _ _ _ => 5, fun _ _ _ _ _ _ => (0, 0), true⟩

/-- Resolver state holding street 1 and a previous in-bounds coordinate. -/
def debounceState : ResolverState :=
  ⟨some 1, none, none, none, none, true, some q45_41, some qm73_9⟩

/-- Second GPS update, in bounds, at haversine distance exactly 5 m. -/
def debounceSource : SourceState :=
  ⟨"home".data, ⟨none, none, none, some q45_42, some qm73_9⟩⟩

/-- C5 counterexample: at haversine distance exactly 5 meters ("at most 5")
the debounce does NOT fire — the code tests strictly `< 5` — so the update is
re-processed and the resolved street-side-id changes (here from `some 1` to
`none`, with a change notification). -/
theorem gps_debounce_fails_at_exactly_five :
    debounceEnv.hav q45_41 qm73_9 q45_42 qm73_9 = 5 ∧
    debounceState.current_cote_rue_id = some 1 ∧
    _is_in_montreal q45_42 qm73_9 = true ∧
    (_async_resolve_from_state debounceEnv 9 debounceState debounceSource).1.current_cote_rue_id
      = none ∧
    (_async_resolve_from_state debounceEnv 9 debounceState debounceSource).2
      = [(some 1, none)] := by
  refine ⟨rfl, rfl, by decide, by decide, by decide⟩

/-- C5 (amended): two successive GPS-path updates with in-bounds coordinates
whose haversine distance to the stored coordinate is strictly below 5 meters
skip re-resolution entirely: the step returns the state unchanged (beyond
marking the source available) and emits no notification, for every
environment — so no nearest-neighbor computation can be triggered and the
resolved street-side-id is unchanged. -/
theorem gps_debounce_skips (env : ResolverEnv) (now : Int) (rs : ResolverState)
    (s : SourceState) (lat lon plat plon : ℚ)
    (hstate : ¬(s.state = "unavailable".data ∨ s.state = "unknown".data))
    (haddr : _extract_address_from_attributes s.attributes = none)
    (hlat : s.attributes.latitude = some lat)
    (hlon : s.attributes.longitude = some lon)
    (hbox : _is_in_montreal lat lon = true)
    (hplat : rs.last_latitude = some plat)
    (hplon : rs.last_longitude = some plon)
    (hdist : env.hav plat plon lat lon < MIN_DISTANCE_THRESHOLD) :
    _async_resolve_from_state env now rs s
      = ({ rs with source_available := true }, []) ∧
    (rs.source_available = true →
      _async_resolve_from_state env now rs s = (rs, [])) := by
  have h1 : _async_resolve_from_state env now rs s
      = ({ rs with source_available := true }, []) := by
    unfold _async_resolve_from_state
    rw [if_neg hstate]
    simp only [haddr, hlat, hlon]
    unfold _async_resolve_from_gps
    rw [if_neg (by rw [hbox]; simp)]
    simp only [hplat, hplon]
    rw [if_pos hdist]
  refine ⟨h1, fun hav => ?_⟩
  rw [h1]
  obtain ⟨a, b, c, d, e, f, g, h⟩ := rs
  simp only at hav
  rw [hav]

/-- Witness for the debounce: a concrete second update 4 m away is skipped. -/
theorem gps_debounce_skips_witness :
    _async_resolve_from_state
      ⟨⟨true, []⟩, none, fun _ _ _ _ => 4, fun _ _ _ _ _ _ => (0, 0), true⟩ 0
      ⟨some 1, none, none, none, none, true, some q45_41, some qm73_9⟩
      ⟨"home".data, ⟨none, none, none, some q45_42, some qm73_9⟩⟩
      = (⟨some 1, none, none, none, none, true, some q45_41, some qm73_9⟩, []) :=
  (gps_debounce_skips
    ⟨⟨true, []⟩, none, fun _ _ _ _ => 4, fun _ _ _ _ _ _ => (0, 0), true⟩ 0
    ⟨some 1, none, none, none, none, true, some q45_41, some qm73_9⟩
    ⟨"home".data, ⟨none, none, none, some q45_42, some qm73_9⟩⟩
    q45_42 qm73_9 q45_41 qm73_9
    (by decide) rfl rfl rfl (by decide) rfl rfl (by decide)).2 rfl

/-! C1: behavior of the resolver when the address attribute fails. -/

/-- Environment for the address-failure counterexample: loaded but empty
geobase, loaded GeoJSON handler, callback registered. -/
def addrFailEnv : ResolverEnv :=
  ⟨⟨true, []⟩, some ⟨true, []⟩, fun _ _ _ _ => 0, fun _ _ _ _ _ _ => (0, 0), true⟩

/-- Resolver state currently resolved to street 7. -/
def addrFailState : ResolverState :=
  ⟨some 7, none, none, none, none, true, none, none⟩

/-- Update carrying the unparseable address "rue" (a bare street-type token)
together with usable in-bounds GPS coordinates. -/
def addrFailSource : SourceState :=
  ⟨"ok".data, ⟨some "rue".data, none, none, some q45_42, some qm73_9⟩⟩

/-- C1 counterexample: a non-empty address attribute that fails to parse does
NOT fall through to GPS although latitude/longitude are available — the
resolution method stays `address_attribute` and the GPS coordinates are never
consumed — and the previously resolved street-side-id is overwritten to
`none`, firing a change notification. -/
theorem address_parse_failure_overwrites :
    parse_address "rue".data = none ∧
    (addrFailSource.attributes.latitude).isSome = true ∧
    (_async_resolve_from_state addrFailEnv 2 addrFailState addrFailSource).1.current_cote_rue_id
      = none ∧
    (_async_resolve_from_state addrFailEnv 2 addrFailState addrFailSource).1.resolution_method
      = some .address_attribute ∧
    (_async_resolve_from_state addrFailEnv 2 addrFailState addrFailSource).1.last_latitude
      = none ∧
    (_async_resolve_from_state addrFailEnv 2 addrFailState addrFailSource).2
      = [(some 7, none)] := by
  refine ⟨by decide, rfl, by decide, by decide, by decide, by decide⟩

/-- C1 (amended): an extracted, non-empty address whose parse fails or whose
catalog search returns no matches makes the resolver overwrite its state to
unresolved — id `none`, method `address_attribute` — without attempting GPS
resolution (the stored coordinates are untouched), and the previous id is
replaced, with a notification exactly when it was different from `none` and a
callback is registered.  Only an address attribute that is empty or
whitespace-only (skipped at extraction) lets the update fall through to the
GPS strategy. -/
theorem address_failure_no_gps_fallthrough (env : ResolverEnv) (now : Int)
    (rs : ResolverState) (s : SourceState) (address : List Char)
    (hstate : ¬(s.state = "unavailable".data ∨ s.state = "unknown".data))
    (haddr : _extract_address_from_attributes s.attributes = some address)
    (hfail : parse_address address = none ∨
      ∃ parsed, parse_address address = some parsed ∧
        search_address env.geobase parsed.street_number parsed.street_name = []) :
    (_async_resolve_from_state env now rs s).1.current_cote_rue_id = none ∧
    (_async_resolve_from_state env now rs s).1.resolution_method
      = some .address_attribute ∧
    (_async_resolve_from_state env now rs s).1.last_latitude = rs.last_latitude ∧
    (_async_resolve_from_state env now rs s).1.last_longitude = rs.last_longitude ∧
    (_async_resolve_from_state env now rs s).2
      = (if rs.current_cote_rue_id ≠ none ∧ env.has_callback = true
         then [(rs.current_cote_rue_id, none)] else []) := by
  have hstep : _async_resolve_from_state env now rs s
      = _update_resolution env now { rs with source_available := true }
          none none .address_attribute := by
    unfold _async_resolve_from_state
    rw [if_neg hstate]
    simp only [haddr]
    unfold _async_resolve_from_address
    rcases hfail with hp | ⟨parsed, hp, hs⟩
    · rw [hp]
    · rw [hp]
      dsimp only
      by_cases hn : parsed.street_name = []
      · rw [if_pos hn]
      · rw [if_neg hn, hs]
  rw [hstep]
  unfold _update_resolution
  by_cases hc : rs.current_cote_rue_id ≠ (none : Option Int) ∧ env.has_callback = true
  · rw [if_pos hc, if_pos hc]
    exact ⟨rfl, rfl, rfl, rfl, rfl⟩
  · rw [if_neg hc, if_neg hc]
    exact ⟨rfl, rfl, rfl, rfl, rfl⟩

/-- Witness for the address-failure behavior at a concrete no-match address:
"9 zzz" parses but matches nothing in a one-street catalog. -/
theorem address_failure_no_gps_fallthrough_witness :
    (_async_resolve_from_state
      ⟨⟨true, [(4, ⟨"main".data, [], .absent, .absent, [], []⟩)]⟩, none,
        fun _ _ _ _ => 0, fun _ _ _ _ _ _ => (0, 0), false⟩ 1
      ⟨some 4, none, none, none, none, true, none, none⟩
      ⟨"ok".data, ⟨none, some "9 zzz".data, none, none, none⟩⟩).1.resolution_method
      = some .address_attribute :=
  (address_failure_no_gps_fallthrough
    ⟨⟨true, [(4, ⟨"main".data, [], .absent, .absent, [], []⟩)]⟩, none,
      fun _ _ _ _ => 0, fun _ _ _ _ _ _ => (0, 0), false⟩ 1
    ⟨some 4, none, none, none, none, true, none, none⟩
    ⟨"ok".data, ⟨none, some "9 zzz".data, none, none, none⟩⟩
    "9 zzz".data (by decide) (by decide)
    (Or.inr ⟨⟨some 9, "zzz".data, none, "9 zzz".data⟩, by decide, by decide⟩)).2.1

/-! C7: contract of `_find_nearest_street`. -/

/-- Point-to-polyline distance of a geometry entry. -/
def ptlDist (env : ResolverEnv) (lat lon : ℚ) (g : Geometry) : WithTop ℚ :=
  (_point_to_linestring_distance env lat lon g.coordinates).1

theorem bestDistance_some (b : BestMatch) : bestDistance (some b) = b.distance := rfl

theorem mkBestMatch_distance (env : ResolverEnv) (cote_rue_id : Int)
    (d : WithTop ℚ) : (mkBestMatch env cote_rue_id d).distance = d := by
  unfold mkBestMatch
  cases get_street_info env.geobase cote_rue_id <;> rfl

theorem mkBestMatch_id (env : ResolverEnv) (cote_rue_id : Int)
    (d : WithTop ℚ) : (mkBestMatch env cote_rue_id d).cote_rue_id = cote_rue_id := by
  unfold mkBestMatch
  cases get_street_info env.geobase cote_rue_id <;> rfl

/-- Provenance invariant of the candidate loop: the running best always comes
from a geometry entry with at least two vertices at exactly its recorded
distance. -/
def AccOK (env : ResolverEnv) (gj : GeoJSONHandler) (lat lon : ℚ)
    (acc : Option BestMatch) : Prop :=
  ∀ b, acc = some b → ∃ g, get_geometry gj b.cote_rue_id = some g ∧
    2 ≤ g.coordinates.length ∧ ptlDist env lat lon g = b.distance ∧
    b = mkBestMatch env b.cote_rue_id b.distance

theorem nearestStep_bestDistance_le (env : ResolverEnv) (gj : GeoJSONHandler)
    (lat lon : ℚ) (acc : Option BestMatch) (k : Int) :
    bestDistance (nearestStep env gj lat lon acc k) ≤ bestDistance acc := by
  unfold nearestStep
  cases hg : get_geometry gj k with
  | none => exact le_refl _
  | some g =>
    dsimp only
    by_cases hl : g.coordinates.length < 2
    · rw [if_pos hl]
    · rw [if_neg hl]
      by_cases hd : (_point_to_linestring_distance env lat lon g.coordinates).1
          < bestDistance acc
      · rw [if_pos hd]
        rw [bestDistance_some, mkBestMatch_distance]
        exact le_of_lt hd
      · rw [if_neg hd]

theorem nearestStep_le_entry (env : ResolverEnv) (gj : GeoJSONHandler)
    (lat lon : ℚ) (acc : Option BestMatch) (k : Int) (g : Geometry)
    (hg : get_geometry gj k = some g) (hlen : 2 ≤ g.coordinates.length) :
    bestDistance (nearestStep env gj lat lon acc k) ≤ ptlDist env lat lon g := by
  unfold nearestStep
  rw [hg]
  dsimp only
  rw [if_neg (by omega : ¬ g.coordinates.length < 2)]
  by_cases hd : (_point_to_linestring_distance env lat lon g.coordinates).1
      < bestDistance acc
  · rw [if_pos hd]
    rw [bestDistance_some, mkBestMatch_distance]
    exact le_refl _
  · rw [if_neg hd]
    exact le_of_not_lt hd

theorem nearestStep_accOK (env : ResolverEnv) (gj : GeoJSONHandler)
    (lat lon : ℚ) (acc : Option BestMatch) (k : Int)
    (h : AccOK env gj lat lon acc) :
    AccOK env gj lat lon (nearestStep env gj lat lon acc k) := by
  unfold nearestStep
  cases hg : get_geometry gj k with
  | none => exact h
  | some g =>
    dsimp only
    by_cases hl : g.coordinates.length < 2
    · rw [if_pos hl]; exact h
    · rw [if_neg hl]
      by_cases hd : (_point_to_linestring_distance env lat lon g.coordinates).1
          < bestDistance acc
      · rw [if_pos hd]
        intro b hb
        have hb' : b = mkBestMatch env k
            (_point_to_linestring_distance env lat lon g.coordinates).1 :=
          (Option.some.inj hb).symm
        subst hb'
        rw [mkBestMatch_id, mkBestMatch_distance]
        exact ⟨g, hg, by omega, rfl, rfl⟩
      · rw [if_neg hd]; exact h

theorem foldl_nearest_spec (env : ResolverEnv) (gj : GeoJSONHandler)
    (lat lon : ℚ) :
    ∀ (keys : List Int) (acc : Option BestMatch), AccOK env gj lat lon acc →
      AccOK env gj lat lon (keys.foldl (nearestStep env gj lat lon) acc) ∧
      bestDistance (keys.foldl (nearestStep env gj lat lon) acc)
        ≤ bestDistance acc ∧
      (∀ cid g, cid ∈ keys → get_geometry gj cid = some g →
        2 ≤ g.coordinates.length →
        bestDistance (keys.foldl (nearestStep env gj lat lon) acc)
          ≤ ptlDist env lat lon g) := by
  intro keys
  induction keys with
  | nil =>
    intro acc h
    exact ⟨h, le_refl _, fun cid g hmem => absurd hmem (List.not_mem_nil cid)⟩
  | cons k ks ih =>
    intro acc h
    rw [List.foldl_cons]
    obtain ⟨ih1, ih2, ih3⟩ :=
      ih (nearestStep env gj lat lon acc k) (nearestStep_accOK env gj lat lon acc k h)
    refine ⟨ih1, le_trans ih2 (nearestStep_bestDistance_le env gj lat lon acc k), ?_⟩
    intro cid g hmem hg hlen
    rcases List.mem_cons.mp hmem with heq | hmem'
    · subst heq
      exact le_trans ih2 (nearestStep_le_entry env gj lat lon acc cid g hg hlen)
    · exact ih3 cid g hmem' hg hlen

/-- C7: the nearest-street computation considers only geometry entries with at
least 2 vertices; a returned `(street_side_id, distance, side)` has the
globally minimal point-to-polyline distance over all such candidates and that
distance is below 100 meters; when it returns `null`, every candidate with at
least 2 vertices is at distance 100 or more. -/
theorem find_nearest_street_contract (env : ResolverEnv) (gj : GeoJSONHandler)
    (lat lon : ℚ) :
    (∀ cid name d side,
      _find_nearest_street env gj lat lon = some (cid, name, d, side) →
      d < ((100 : ℚ) : WithTop ℚ) ∧
      (∃ g, get_geometry gj cid = some g ∧ 2 ≤ g.coordinates.length ∧
        ptlDist env lat lon g = d) ∧
      (∀ cid' g', cid' ∈ gj.geometry_map.map (fun e => e.1) →
        get_geometry gj cid' = some g' → 2 ≤ g'.coordinates.length →
        d ≤ ptlDist env lat lon g')) ∧
    (_find_nearest_street env gj lat lon = none →
      ∀ cid' g', cid' ∈ gj.geometry_map.map (fun e => e.1) →
        get_geometry gj cid' = some g' → 2 ≤ g'.coordinates.length →
        ((100 : ℚ) : WithTop ℚ) ≤ ptlDist env lat lon g') := by
  obtain ⟨hOK, -, hmin⟩ := foldl_nearest_spec env gj lat lon
    (gj.geometry_map.map (fun e => e.1)) none (fun b hb => by cases hb)
  constructor
  · intro cid name d side hres
    unfold _find_nearest_street at hres
    cases hfold : (gj.geometry_map.map (fun e => e.1)).foldl
        (nearestStep env gj lat lon) none with
    | none => rw [hfold] at hres; cases hres
    | some b =>
      rw [hfold] at hres
      dsimp only at hres
      by_cases hd : b.distance < ((100 : ℚ) : WithTop ℚ)
      · rw [if_pos hd] at hres
        have hinj := Option.some.inj hres
        obtain ⟨hb1, hb2, hb3, hb4⟩ :
            b.cote_rue_id = cid ∧ b.street_name = name ∧ b.distance = d ∧
            b.street_side = side := by
          refine ⟨congrArg Prod.fst hinj, ?_, ?_, ?_⟩
          · exact congrArg (fun p => p.2.1) hinj
          · exact congrArg (fun p => p.2.2.1) hinj
          · exact congrArg (fun p => p.2.2.2) hinj
        obtain ⟨g, hg, hlen, hptl, -⟩ := hOK b (by rw [hfold])
        subst hb1
        subst hb3
        refine ⟨hd, ⟨g, hg, hlen, hptl⟩, ?_⟩
        intro cid' g' hmem hg' hlen'
        have := hmin cid' g' hmem hg' hlen'
        rw [hfold] at this
        exact this
      · rw [if_neg hd] at hres
        cases hres
  · intro hres cid' g' hmem hg' hlen'
    have hm := hmin cid' g' hmem hg' hlen'
    unfold _find_nearest_street at hres
    cases hfold : (gj.geometry_map.map (fun e => e.1)).foldl
        (nearestStep env gj lat lon) none with
    | none =>
      rw [hfold] at hm
      have : ptlDist env lat lon g' = ⊤ := top_le_iff.mp hm
      rw [this]
      exact le_top
    | some b =>
      rw [hfold] at hres hm
      dsimp only at hres
      by_cases hd : b.distance < ((100 : ℚ) : WithTop ℚ)
      · rw [if_pos hd] at hres
        cases hres
      · exact le_trans (le_of_not_lt hd) hm

/-- One-street environment for the nearest-street witness. -/
def nearestWitnessEnv : ResolverEnv :=
  ⟨⟨true, [(4, ⟨"a".data, [], .absent, .absent, [], []⟩)]⟩, none,
   fun _ _ _ _ => 1, fun _ _ _ _ _ _ => (7, 0), true⟩

/-- Two-vertex geometry map for the nearest-street witness. -/
def nearestWitnessGeo : GeoJSONHandler :=
  ⟨true, [(4, ⟨[((0 : ℚ), (0 : ℚ)), ((1 : ℚ), (0 : ℚ))]⟩)]⟩

theorem nearestWitness_ptl :
    _point_to_linestring_distance nearestWitnessEnv 0 0
      [((0 : ℚ), (0 : ℚ)), ((1 : ℚ), (0 : ℚ))] = (((7 : ℚ) : WithTop ℚ), 0) := by
  unfold _point_to_linestring_distance nearestWitnessEnv
  norm_num
  split_ifs with h
  · exact ⟨rfl, rfl⟩
  · exact absurd (lt_top_iff_ne_top.mpr (by norm_num)) h

theorem nearestWitness_result :
    _find_nearest_street nearestWitnessEnv nearestWitnessGeo 0 0
      = some (4, "a".data, ((7 : ℚ) : WithTop ℚ), some []) := by
  have hg : get_geometry nearestWitnessGeo 4
      = some ⟨[((0 : ℚ), (0 : ℚ)), ((1 : ℚ), (0 : ℚ))]⟩ := rfl
  unfold _find_nearest_street
  show (match nearestStep nearestWitnessEnv nearestWitnessGeo 0 0 none 4 with
    | some b =>
      if b.distance < ((100 : ℚ) : WithTop ℚ) then
        some (b.cote_rue_id, b.street_name, b.distance, b.street_side)
      else none
    | none => none) = _
  unfold nearestStep
  rw [hg]
  dsimp only
  rw [if_neg (by decide)]
  rw [nearestWitness_ptl]
  dsimp only [bestDistance]
  rw [if_pos (WithTop.coe_lt_top 7)]
  rw [show mkBestMatch nearestWitnessEnv 4 ((7 : ℚ) : WithTop ℚ)
    = ⟨4, "a".data, ((7 : ℚ) : WithTop ℚ), some []⟩ from rfl]
  dsimp only
  rw [if_pos (WithTop.coe_lt_coe.mpr (by norm_num))]

/-- Witness for the nearest-street contract: a concrete hit at distance 7 m is
below the 100 m threshold. -/
theorem find_nearest_street_contract_witness :
    (((7 : ℚ) : WithTop ℚ)) < ((100 : ℚ) : WithTop ℚ) :=
  ((find_nearest_street_contract nearestWitnessEnv nearestWitnessGeo 0 0).1
    4 "a".data ((7 : ℚ) : WithTop ℚ) (some []) nearestWitness_result).1
